import Mathlib

/-!
Shallow embedding of the FTDI SIO host driver (components/usb_host_ftdi_sio)
wire-protocol codec and registry/session logic, with theorems checking the
natural-language specification against it.

Conventions of the embedding:
* C `uint32_t`/`uint16_t`/`uint8_t` arithmetic is modelled on `Nat`; all
  intermediate values in the embedded code are bounded well below `2 ^ 32`
  (the largest product formed is `12000000 * 8`), so no wrap-around modelling
  is required except for the explicit output masks, which the C source writes
  itself (`& 0xFFFF` becomes `% 65536`, `& 0x07` becomes `% 8`,
  `>> k` becomes `/ 2 ^ k`).
* `esp_err_t` returns together with out-parameters become `Except EspErr _`.
* A C null-pointer argument is modelled, where a claim talks about it, as an
  explicit boolean flag (`..._null`): the C function only inspects the
  pointer for nullness before writing through it.
-/

/-- The subset of `esp_err_t` codes the embedded functions produce. -/
inductive EspErr where
  | invalidArg
  | invalidState
  | noMem
  | notFound
  deriving DecidableEq

/-- `ftdi_chip_type_t` from ftdi_host_types.h. -/
inductive FtdiChipType where
  | unknown
  | ft232R
  | ft232H
  | ft2232D
  | ft4232H
  | ft230X
  deriving DecidableEq

/-- `ftdi_control_request_t`: request code, wValue, wIndex. -/
structure ControlRequest where
  request : Nat
  value : Nat
  index : Nat
  deriving DecidableEq

/-- Base-clock selection switch at the head of `ftdi_calculate_baudrate_divisor`
(ftdi_host_protocol.c lines 162-179): 232R/230X at 3 MHz, 232H at 12 MHz,
2232D/4232H at 6 MHz, default (unknown) 3 MHz. -/
def ftdi_base_clock : FtdiChipType → Nat
  | .ft232R => 3000000
  | .ft230X => 3000000
  | .ft232H => 12000000
  | .ft2232D => 6000000
  | .ft4232H => 6000000
  | .unknown => 3000000

/-- The fractional-octant re-encoding switch of
`ftdi_calculate_baudrate_divisor` (ftdi_host_protocol.c lines 207-217):
the 3-bit value OR-ed in at bit 14. The default branch of the C switch adds
nothing, i.e. encodes as 0. -/
def ftdi_fraction_encode : Nat → Nat
  | 0 => 0
  | 1 => 3
  | 2 => 2
  | 3 => 4
  | 4 => 1
  | 5 => 5
  | 6 => 6
  | 7 => 7
  | _ => 0

/-- The divisor-adjustment chain of `ftdi_calculate_baudrate_divisor`
(ftdi_host_protocol.c lines 193-201): 8 means divide-by-1, below 8 is clamped
to 0 (max rate), above 0x1FFFF8 is clamped to 0x1FFFF8. -/
def ftdi_adjust_divisor (divisor : Nat) : Nat :=
  if divisor = 8 then 1
  else if divisor < 8 then 0
  else if divisor > 0x1FFFF8 then 0x1FFFF8
  else divisor

/-- The encoding tail of `ftdi_calculate_baudrate_divisor`
(ftdi_host_protocol.c lines 203-230): split into integral part (`>> 3`) and
fractional part (`& 0x07`), re-encode the fraction at bit 14, split the word
into wValue (`& 0xFFFF`) and wIndex (`>> 16 & 0xFFFF`), then the post-hoc
overrides for divisor 0 and divisor 1. -/
def ftdi_encode_divisor (divisor : Nat) : Nat × Nat :=
  let integral_part := divisor / 8
  let fractional_part := divisor % 8
  let divisor_encoded_value := integral_part ||| (ftdi_fraction_encode fractional_part <<< 14)
  if divisor = 0 then (0, 0)
  else if divisor = 1 then (1, 0)
  else (divisor_encoded_value % 65536, divisor_encoded_value / 65536 % 65536)

/-- `ftdi_calculate_baudrate_divisor` (ftdi_host_protocol.c lines 153-233),
null-pointer checks aside: select base clock by chip type, reject baud rates
outside [300, base_clock/2], compute `(base_clock * 8) / baudrate`, adjust,
encode. Returns `(value, index)`. -/
def ftdi_calculate_baudrate_divisor (baudrate : Nat) (chip_type : FtdiChipType) :
    Except EspErr (Nat × Nat) :=
  let base_clock := ftdi_base_clock chip_type
  if baudrate < 300 ∨ base_clock / 2 < baudrate then
    .error .invalidArg
  else
    .ok (ftdi_encode_divisor (ftdi_adjust_divisor (base_clock * 8 / baudrate)))

/-- `FTDI_SIO_SET_MODEM_CTRL` request code (ftdi_host_protocol.h). -/
def FTDI_SIO_SET_MODEM_CTRL : Nat := 1

/-- `FTDI_SIO_SET_DATA` request code (ftdi_host_protocol.h). -/
def FTDI_SIO_SET_DATA : Nat := 4

/-- `FTDI_SIO_SET_DTR_MASK` (ftdi_host_protocol.h). -/
def FTDI_SIO_SET_DTR_MASK : Nat := 0x01

/-- `FTDI_SIO_SET_RTS_MASK` (ftdi_host_protocol.h). -/
def FTDI_SIO_SET_RTS_MASK : Nat := 0x02

/-- `ftdi_protocol_build_set_line_property` (ftdi_host_protocol.c lines
44-72), null check aside: validate data bits in {7,8}, stop bits at most 2,
parity at most 4 (space); encode value as
`bits | (parity << 8) | (stype << 11)`, index 0. -/
def ftdi_protocol_build_set_line_property (bits stype parity : Nat) :
    Except EspErr ControlRequest :=
  if bits ≠ 7 ∧ bits ≠ 8 then .error .invalidArg
  else if 2 < stype then .error .invalidArg
  else if 4 < parity then .error .invalidArg
  else .ok ⟨FTDI_SIO_SET_DATA, bits ||| (parity <<< 8) ||| (stype <<< 11), 0⟩

/-- `ftdi_protocol_build_set_modem_ctrl` (ftdi_host_protocol.c lines 74-105):
fails only on a null output slot; otherwise always sets both mask bits in the
high byte and the DTR/RTS data bits as requested. -/
def ftdi_protocol_build_set_modem_ctrl (req_out_null : Bool) (dtr rts : Bool) :
    Except EspErr ControlRequest :=
  if req_out_null then .error .invalidArg
  else
    let value0 : Nat := 0
    let value1 := value0 ||| (FTDI_SIO_SET_DTR_MASK <<< 8)
    let value2 := if dtr then value1 ||| FTDI_SIO_SET_DTR_MASK else value1
    let value3 := value2 ||| (FTDI_SIO_SET_RTS_MASK <<< 8)
    let value4 := if rts then value3 ||| FTDI_SIO_SET_RTS_MASK else value3
    .ok ⟨FTDI_SIO_SET_MODEM_CTRL, value4, 0⟩

/-- `ftdi_modem_status_t` (ftdi_host_types.h): the eleven defined flags.
The two reserved bitfields of the C struct are never written by the parser
(it zeroes the struct first) and are omitted. Fields hold the extracted bit
(0 or 1), as in the C bitfields. -/
structure ModemStatus where
  data_pending : Nat
  overrun : Nat
  parity_error : Nat
  framing_error : Nat
  break_received : Nat
  tx_holding_empty : Nat
  tx_empty : Nat
  cts : Nat
  dsr : Nat
  ri : Nat
  rlsd : Nat
  deriving DecidableEq

/-- The bit-extraction body of `ftdi_protocol_parse_modem_status`
(ftdi_host_protocol.c lines 132-148): byte 0 bits 0-6 and byte 1 bits 4-7;
`(b >> k) & 0x01` is written `b / 2^k % 2`. -/
def ftdi_parse_modem_status_core (b0 b1 : Nat) : ModemStatus where
  data_pending := b0 % 2
  overrun := b0 / 2 % 2
  parity_error := b0 / 4 % 2
  framing_error := b0 / 8 % 2
  break_received := b0 / 16 % 2
  tx_holding_empty := b0 / 32 % 2
  tx_empty := b0 / 64 % 2
  cts := b1 / 16 % 2
  dsr := b1 / 32 % 2
  ri := b1 / 64 % 2
  rlsd := b1 / 128 % 2

/-- `ftdi_protocol_parse_modem_status` (ftdi_host_protocol.c lines 125-151):
InvalidArgument when the input pointer or the output pointer is null,
otherwise the pure bit extraction. -/
def ftdi_protocol_parse_modem_status (data_null status_null : Bool) (b0 b1 : Nat) :
    Except EspErr ModemStatus :=
  if data_null || status_null then .error .invalidArg
  else .ok (ftdi_parse_modem_status_core b0 b1)

/-- The divisor pipeline exactly as the specification words it (spec.md 4.1,
claim C1): raw division, the three raw adjustments, split into integral and
fractional octant, the fixed non-monotonic re-encoding table, the word
assembly, the value/index split, and the two post-hoc overrides. This
definition is written from the specification text, to be compared against
the embedding of the source. -/
def divisor_spec_C1 (base_clock baudrate : Nat) : Nat × Nat :=
  let raw0 := base_clock * 8 / baudrate
  let raw := if raw0 = 8 then 1
             else if raw0 < 8 then 0
             else if raw0 > 0x1FFFF8 then 0x1FFFF8
             else raw0
  let integral := raw / 8
  let fractional := raw % 8
  let encoded_fraction :=
    if fractional = 0 then 0
    else if fractional = 1 then 3
    else if fractional = 2 then 2
    else if fractional = 3 then 4
    else if fractional = 4 then 1
    else if fractional = 5 then 5
    else if fractional = 6 then 6
    else 7
  let word := integral ||| (encoded_fraction <<< 14)
  if raw = 0 then (0, 0)
  else if raw = 1 then (1, 0)
  else (word % 65536, word / 65536 % 65536)

/-- The source's fractional re-encoding switch agrees, on every octant, with
the specification's table written as a decision chain. -/
theorem ftdi_fraction_encode_mod (d : Nat) :
    ftdi_fraction_encode (d % 8) =
      (if d % 8 = 0 then 0
       else if d % 8 = 1 then 3
       else if d % 8 = 2 then 2
       else if d % 8 = 3 then 4
       else if d % 8 = 4 then 1
       else if d % 8 = 5 then 5
       else if d % 8 = 6 then 6
       else 7) := by
  have hm : d % 8 < 8 := Nat.mod_lt _ (by norm_num)
  generalize hk : d % 8 = k at hm ⊢
  interval_cases k <;> rfl

/-- Claim C1: for every baud rate in [300, base_clock/2],
`ftdi_calculate_baudrate_divisor` succeeds and its result is exactly the
step-by-step pipeline the specification describes (raw division, the 8/below-8
and 0x1FFFF8 adjustments, integral/fractional split, the fixed re-encoding
table at bit 14, the 16-bit value/index split and the raw=0, raw=1
overrides). -/
theorem ftdi_divisor_follows_spec_steps (chip : FtdiChipType) (baud : Nat)
    (h1 : 300 ≤ baud) (h2 : baud ≤ ftdi_base_clock chip / 2) :
    ftdi_calculate_baudrate_divisor baud chip =
      .ok (divisor_spec_C1 (ftdi_base_clock chip) baud) := by
  simp only [ftdi_calculate_baudrate_divisor, divisor_spec_C1,
    ftdi_adjust_divisor, ftdi_encode_divisor]
  rw [if_neg (by omega), ftdi_fraction_encode_mod]

/-- Claim C1 witness: the theorem applied to the FT232R chip at 9600 baud. -/
theorem ftdi_divisor_follows_spec_steps_witness :
    ftdi_calculate_baudrate_divisor 9600 .ft232R =
      .ok (divisor_spec_C1 (ftdi_base_clock .ft232R) 9600) :=
  ftdi_divisor_follows_spec_steps .ft232R 9600 (by norm_num) (by decide)

/-- Claim C2: what the source actually returns for the specification's
concrete FT232R scenarios. The fractional octant is re-encoded into bits
14-16 of the divisor word, so 9600 baud yields value 16696 (0x4138), not the
raw divisor 2500 that the specification (and the repository's own host test
test_ftdi_protocol.cpp) expects; likewise 19200 yields 32924 (not 1250),
115200 yields 26 (not a value in (200, 220)) and 921600 yields 32771 (not a
value in (20, 30)). Only the two InvalidArgument scenarios match. -/
theorem ftdi_divisor_ft232r_scenarios_actual :
    ftdi_calculate_baudrate_divisor 9600 .ft232R = .ok (16696, 0) ∧
    ftdi_calculate_baudrate_divisor 19200 .ft232R = .ok (32924, 0) ∧
    ftdi_calculate_baudrate_divisor 115200 .ft232R = .ok (26, 0) ∧
    ftdi_calculate_baudrate_divisor 921600 .ft232R = .ok (32771, 0) ∧
    ftdi_calculate_baudrate_divisor 100 .ft232R = .error .invalidArg ∧
    ftdi_calculate_baudrate_divisor 10000000 .ft232R = .error .invalidArg :=
  ⟨rfl, rfl, rfl, rfl, rfl, rfl⟩

/-- Claim C3: for every baud rate in [300, base_clock/2] the divisor
calculation succeeds, the divisor it encodes is exactly the raw fixed-point
divisor `base_clock * 8 / baud` (none of the adjustment branches fire), and
that divisor approximates the request to within one fractional (1/8) step:
in 1/8-divisor units `d` we have `d * baud ≤ base_clock * 8 < (d+1) * baud`,
i.e. the requested baud lies between the rate re-derived from `d` and the
rate re-derived from one more eighth. For every baud rate outside the range
the call fails with InvalidArgument. -/
theorem ftdi_divisor_within_one_fractional_step (chip : FtdiChipType) (baud : Nat) :
    (300 ≤ baud → baud ≤ ftdi_base_clock chip / 2 →
      ftdi_calculate_baudrate_divisor baud chip =
        .ok (ftdi_encode_divisor (ftdi_base_clock chip * 8 / baud)) ∧
      ftdi_adjust_divisor (ftdi_base_clock chip * 8 / baud) =
        ftdi_base_clock chip * 8 / baud ∧
      (ftdi_base_clock chip * 8 / baud) * baud ≤ ftdi_base_clock chip * 8 ∧
      ftdi_base_clock chip * 8 < (ftdi_base_clock chip * 8 / baud + 1) * baud) ∧
    (baud < 300 ∨ ftdi_base_clock chip / 2 < baud →
      ftdi_calculate_baudrate_divisor baud chip = .error .invalidArg) := by
  constructor
  · intro h1 h2
    have hbaud0 : 0 < baud := by omega
    have hr16 : 16 ≤ ftdi_base_clock chip * 8 / baud := by
      rw [Nat.le_div_iff_mul_le hbaud0]
      omega
    have hbc : ftdi_base_clock chip ≤ 12000000 := by
      cases chip <;> norm_num [ftdi_base_clock]
    have hrm1 : ftdi_base_clock chip * 8 / baud ≤ ftdi_base_clock chip * 8 / 300 :=
      Nat.div_le_div_left h1 (by norm_num)
    have hrm2 : ftdi_base_clock chip * 8 / 300 ≤ 96000000 / 300 :=
      Nat.div_le_div_right (by omega)
    have hadj : ftdi_adjust_divisor (ftdi_base_clock chip * 8 / baud) =
        ftdi_base_clock chip * 8 / baud := by
      unfold ftdi_adjust_divisor
      rw [if_neg (by omega), if_neg (by omega), if_neg (by omega)]
    refine ⟨?_, hadj, Nat.div_mul_le_self _ _, ?_⟩
    · simp only [ftdi_calculate_baudrate_divisor]
      rw [if_neg (by omega), hadj]
    · have hdm := Nat.div_add_mod (ftdi_base_clock chip * 8) baud
      have hmod : ftdi_base_clock chip * 8 % baud < baud := Nat.mod_lt _ hbaud0
      have h' : ftdi_base_clock chip * 8 <
          baud * (ftdi_base_clock chip * 8 / baud) + baud := by omega
      calc ftdi_base_clock chip * 8
          < baud * (ftdi_base_clock chip * 8 / baud) + baud := h'
        _ = (ftdi_base_clock chip * 8 / baud + 1) * baud := by ring
  · intro h
    simp only [ftdi_calculate_baudrate_divisor]
    rw [if_pos (by omega)]

/-- Claim C3 witness: the theorem applied at FT232R with 19200 baud (valid
side) and with 100 baud (invalid side). -/
theorem ftdi_divisor_within_one_fractional_step_witness :
    (ftdi_calculate_baudrate_divisor 19200 .ft232R =
        .ok (ftdi_encode_divisor (ftdi_base_clock .ft232R * 8 / 19200)) ∧
      ftdi_adjust_divisor (ftdi_base_clock .ft232R * 8 / 19200) =
        ftdi_base_clock .ft232R * 8 / 19200 ∧
      (ftdi_base_clock .ft232R * 8 / 19200) * 19200 ≤ ftdi_base_clock .ft232R * 8 ∧
      ftdi_base_clock .ft232R * 8 < (ftdi_base_clock .ft232R * 8 / 19200 + 1) * 19200) ∧
    ftdi_calculate_baudrate_divisor 100 .ft232R = .error .invalidArg :=
  ⟨(ftdi_divisor_within_one_fractional_step .ft232R 19200).1 (by norm_num) (by decide),
   (ftdi_divisor_within_one_fractional_step .ft232R 100).2 (by decide)⟩

/-- Claim C10: for every chip variant and every baud rate passing the range
check 300 ≤ baud ≤ base_clock/2, the raw divisor `base_clock * 8 / baud` is
at most 0x1FFFF8, so the clamp branch of the adjustment chain can never fire
for a valid input. -/
theorem ftdi_divisor_clamp_unreachable (chip : FtdiChipType) (baud : Nat)
    (h1 : 300 ≤ baud) (h2 : baud ≤ ftdi_base_clock chip / 2) :
    ftdi_base_clock chip * 8 / baud ≤ 0x1FFFF8 := by
  have hbc : ftdi_base_clock chip ≤ 12000000 := by
    cases chip <;> norm_num [ftdi_base_clock]
  have hrm1 : ftdi_base_clock chip * 8 / baud ≤ ftdi_base_clock chip * 8 / 300 :=
    Nat.div_le_div_left h1 (by norm_num)
  have hrm2 : ftdi_base_clock chip * 8 / 300 ≤ 96000000 / 300 :=
    Nat.div_le_div_right (by omega)
  omega

/-- Claim C10 witness: the theorem applied at the extreme point, the 12 MHz
FT232H chip at the minimum valid baud rate 300. -/
theorem ftdi_divisor_clamp_unreachable_witness :
    ftdi_base_clock .ft232H * 8 / 300 ≤ 0x1FFFF8 :=
  ftdi_divisor_clamp_unreachable .ft232H 300 (by norm_num) (by decide)

/-- Claim C4: the base clock selected by the divisor calculation for each
chip variant: 232R and 230X at 3 MHz, 232H at 12 MHz, 2232D and 4232H at
6 MHz, and Unknown defaulting to 3 MHz; and the divisor calculation is
exactly the range check plus adjust/encode pipeline applied to the base
clock so selected. -/
theorem ftdi_base_clock_table :
    ftdi_base_clock .ft232R = 3000000 ∧
    ftdi_base_clock .ft232H = 12000000 ∧
    ftdi_base_clock .ft2232D = 6000000 ∧
    ftdi_base_clock .ft4232H = 6000000 ∧
    ftdi_base_clock .ft230X = 3000000 ∧
    ftdi_base_clock .unknown = 3000000 ∧
    ∀ baud chip, ftdi_calculate_baudrate_divisor baud chip =
      (if baud < 300 ∨ ftdi_base_clock chip / 2 < baud then .error .invalidArg
       else .ok (ftdi_encode_divisor (ftdi_adjust_divisor (ftdi_base_clock chip * 8 / baud)))) :=
  ⟨rfl, rfl, rfl, rfl, rfl, rfl, fun _ _ => rfl⟩

/-- Claim C5: for every valid combination (data bits in {7,8}, stop bits at
most 2, parity at most 4) the line-property builder succeeds with value
`bits | (parity << 8) | (stop << 11)` and index 0, and decoding that value
(low byte, bits 8-10, bits 11-13) recovers exactly the inputs; every
combination outside those sets fails with InvalidArgument. -/
theorem ftdi_line_property_roundtrip (b s p : Nat) :
    ((b = 7 ∨ b = 8) ∧ s ≤ 2 ∧ p ≤ 4 →
      ftdi_protocol_build_set_line_property b s p =
        .ok ⟨FTDI_SIO_SET_DATA, b ||| (p <<< 8) ||| (s <<< 11), 0⟩ ∧
      (b ||| (p <<< 8) ||| (s <<< 11)) % 256 = b ∧
      (b ||| (p <<< 8) ||| (s <<< 11)) / 256 % 8 = p ∧
      (b ||| (p <<< 8) ||| (s <<< 11)) / 2048 % 8 = s) ∧
    (¬((b = 7 ∨ b = 8) ∧ s ≤ 2 ∧ p ≤ 4) →
      ftdi_protocol_build_set_line_property b s p = .error .invalidArg) := by
  constructor
  · rintro ⟨hb, hs, hp⟩
    rcases hb with rfl | rfl <;> interval_cases s <;> interval_cases p <;>
      exact ⟨rfl, by decide, by decide, by decide⟩
  · intro h
    unfold ftdi_protocol_build_set_line_property
    by_cases h1 : b ≠ 7 ∧ b ≠ 8
    · rw [if_pos h1]
    · rw [if_neg h1]
      by_cases h2 : 2 < s
      · rw [if_pos h2]
      · rw [if_neg h2]
        by_cases h3 : 4 < p
        · rw [if_pos h3]
        · exact absurd ⟨by tauto, by omega, by omega⟩ h

/-- Claim C5 witness: the theorem applied at 8 data bits, 1.5 stop bits,
even parity (valid side) and at 9 data bits (invalid side). -/
theorem ftdi_line_property_roundtrip_witness :
    (ftdi_protocol_build_set_line_property 8 1 2 =
        .ok ⟨FTDI_SIO_SET_DATA, 8 ||| (2 <<< 8) ||| (1 <<< 11), 0⟩ ∧
      (8 ||| (2 <<< 8) ||| (1 <<< 11)) % 256 = 8 ∧
      (8 ||| (2 <<< 8) ||| (1 <<< 11)) / 256 % 8 = 2 ∧
      (8 ||| (2 <<< 8) ||| (1 <<< 11)) / 2048 % 8 = 1) ∧
    ftdi_protocol_build_set_line_property 9 0 0 = .error .invalidArg :=
  ⟨(ftdi_line_property_roundtrip 8 1 2).1 ⟨Or.inr rfl, by norm_num, by norm_num⟩,
   (ftdi_line_property_roundtrip 9 0 0).2 (by decide)⟩

/-- Claim C6: for every pair of booleans the modem-control builder (with a
non-null output) produces value `0x0300 | (dtr ? 0x01 : 0) | (rts ? 0x02 : 0)`
with request code SET_MODEM_CTRL and index 0 — concretely 0x0303, 0x0300,
0x0301, 0x0302 for the four combinations — and it fails (InvalidArgument)
exactly when the output slot is null. -/
theorem ftdi_modem_ctrl_encoding (dtr rts : Bool) :
    ftdi_protocol_build_set_modem_ctrl false dtr rts =
      .ok ⟨FTDI_SIO_SET_MODEM_CTRL,
           0x0300 ||| (if dtr then 0x01 else 0) ||| (if rts then 0x02 else 0), 0⟩ ∧
    ftdi_protocol_build_set_modem_ctrl false true true =
      .ok ⟨FTDI_SIO_SET_MODEM_CTRL, 0x0303, 0⟩ ∧
    ftdi_protocol_build_set_modem_ctrl false false false =
      .ok ⟨FTDI_SIO_SET_MODEM_CTRL, 0x0300, 0⟩ ∧
    ftdi_protocol_build_set_modem_ctrl false true false =
      .ok ⟨FTDI_SIO_SET_MODEM_CTRL, 0x0301, 0⟩ ∧
    ftdi_protocol_build_set_modem_ctrl false false true =
      .ok ⟨FTDI_SIO_SET_MODEM_CTRL, 0x0302, 0⟩ ∧
    ftdi_protocol_build_set_modem_ctrl true dtr rts = .error .invalidArg := by
  cases dtr <;> cases rts <;> exact ⟨rfl, rfl, rfl, rfl, rfl, rfl⟩

/-- Claim C7: the modem-status parser extracts exactly the eleven defined
flags from byte 0 bits 0-6 and byte 1 bits 4-7; two inputs parse equal
exactly when they agree on those eleven bits (so the map is injective on the
defined bits and the reserved bits — byte 0 bit 7 and byte 1 bits 0-3 —
never influence any output flag); a null input or output pointer fails with
InvalidArgument. -/
theorem ftdi_parse_modem_status_bits (b0 b1 b0' b1' : Nat) :
    ftdi_protocol_parse_modem_status false false b0 b1 =
      .ok { data_pending := b0 % 2, overrun := b0 / 2 % 2, parity_error := b0 / 4 % 2,
            framing_error := b0 / 8 % 2, break_received := b0 / 16 % 2,
            tx_holding_empty := b0 / 32 % 2, tx_empty := b0 / 64 % 2,
            cts := b1 / 16 % 2, dsr := b1 / 32 % 2, ri := b1 / 64 % 2,
            rlsd := b1 / 128 % 2 } ∧
    (ftdi_protocol_parse_modem_status false false b0 b1 =
        ftdi_protocol_parse_modem_status false false b0' b1' ↔
      b0 % 128 = b0' % 128 ∧ b1 / 16 % 16 = b1' / 16 % 16) ∧
    ftdi_protocol_parse_modem_status true false b0 b1 = .error .invalidArg ∧
    ftdi_protocol_parse_modem_status false true b0 b1 = .error .invalidArg ∧
    ftdi_protocol_parse_modem_status true true b0 b1 = .error .invalidArg := by
  refine ⟨rfl, ?_, rfl, rfl, rfl⟩
  change (Except.ok (ftdi_parse_modem_status_core b0 b1) : Except EspErr ModemStatus) =
      .ok (ftdi_parse_modem_status_core b0' b1') ↔ _
  rw [Except.ok.injEq]
  simp only [ftdi_parse_modem_status_core, ModemStatus.mk.injEq]
  omega

/-- The transfer completion statuses `in_xfer_cb` distinguishes
(ftdi_sio_host.c lines 131-158): COMPLETED, NO_DEVICE, and every other
status collapsed into one branch. -/
inductive TransferStatus where
  | completed
  | noDevice
  | other
  deriving DecidableEq

/-- The per-device state `in_xfer_cb` reads: the cached modem status and
whether the event and data callbacks are registered (non-null). -/
structure FtdiDevState where
  modem_status_current : ModemStatus
  has_event_cb : Bool
  has_data_cb : Bool

/-- The observable outcome of one `in_xfer_cb` invocation: the cached modem
status afterwards, whether the modem-status-changed event callback fired,
what byte list (if any) was handed to the data callback, and whether the IN
transfer was resubmitted. -/
structure InXferOutcome where
  modem_status_after : ModemStatus
  modem_event_fired : Bool
  delivered : Option (List Nat)
  resubmitted : Bool

/-- `in_xfer_cb` (ftdi_sio_host.c lines 126-162) as a pure function of the
transfer status, the received bytes (`buf.length` is `actual_num_bytes`) and
the device state. On COMPLETED with at least 2 bytes: parse the status
header; if it differs from the cache (memcmp), replace the cache and fire
the event callback when registered; if more than 2 bytes arrived and a data
callback is registered, deliver the bytes after the first two; resubmit. On
NO_DEVICE: return without resubmitting. On any other status: resubmit. -/
def in_xfer_cb (tstatus : TransferStatus) (buf : List Nat) (dev : FtdiDevState) :
    InXferOutcome :=
  match tstatus with
  | .completed =>
      if 2 ≤ buf.length then
        let new_status := ftdi_parse_modem_status_core (buf.getD 0 0) (buf.getD 1 0)
        if new_status = dev.modem_status_current then
          { modem_status_after := dev.modem_status_current
            modem_event_fired := false
            delivered := if 2 < buf.length ∧ dev.has_data_cb = true
                         then some (buf.drop 2) else none
            resubmitted := true }
        else
          { modem_status_after := new_status
            modem_event_fired := dev.has_event_cb
            delivered := if 2 < buf.length ∧ dev.has_data_cb = true
                         then some (buf.drop 2) else none
            resubmitted := true }
      else
        { modem_status_after := dev.modem_status_current
          modem_event_fired := false
          delivered := none
          resubmitted := true }
  | .noDevice =>
      { modem_status_after := dev.modem_status_current
        modem_event_fired := false
        delivered := none
        resubmitted := false }
  | .other =>
      { modem_status_after := dev.modem_status_current
        modem_event_fired := false
        delivered := none
        resubmitted := true }

/-- The registry state `ftdi_sio_host_uninstall` depends on: whether the
driver object exists (`p_ftdi_sio_obj` non-null) and the list of open device
sessions; devices are identified abstractly by numbers. -/
structure FtdiRegistryState where
  installed : Bool
  devices : List Nat
  deriving DecidableEq

/-- `ftdi_sio_host_uninstall` (ftdi_sio_host.c lines 476-496): InvalidState
when no driver object is installed or the device list is non-empty, in both
cases returning before touching any state; otherwise tear the registry down
(signal the task, free everything, clear the singleton). -/
def ftdi_sio_host_uninstall (s : FtdiRegistryState) :
    Except EspErr Unit × FtdiRegistryState :=
  if !s.installed then (.error .invalidState, s)
  else if !s.devices.isEmpty then (.error .invalidState, s)
  else (.ok (), { installed := false, devices := [] })

/-- Claim C8: on a successfully completed bulk-IN transfer of at least 2
bytes, the handler's cached status afterwards is the parse of the first two
bytes; when an event callback is registered it fires exactly when that parse
differs from the previous cache; the data callback receives exactly the
bytes after the first two (length n-2) exactly when more than 2 bytes
arrived and a data callback is registered — the two status bytes are never
part of a delivery — and the transfer is resubmitted. -/
theorem in_xfer_cb_completed_behavior (buf : List Nat) (dev : FtdiDevState)
    (hlen : 2 ≤ buf.length) :
    (in_xfer_cb .completed buf dev).modem_status_after =
      ftdi_parse_modem_status_core (buf.getD 0 0) (buf.getD 1 0) ∧
    (dev.has_event_cb = true →
      ((in_xfer_cb .completed buf dev).modem_event_fired = true ↔
        ftdi_parse_modem_status_core (buf.getD 0 0) (buf.getD 1 0) ≠
          dev.modem_status_current)) ∧
    (in_xfer_cb .completed buf dev).delivered =
      (if 2 < buf.length ∧ dev.has_data_cb = true then some (buf.drop 2) else none) ∧
    (∀ l, (in_xfer_cb .completed buf dev).delivered = some l →
      l = buf.drop 2 ∧ l.length = buf.length - 2) ∧
    (in_xfer_cb .completed buf dev).resubmitted = true := by
  unfold in_xfer_cb
  rw [if_pos hlen]
  by_cases hch : ftdi_parse_modem_status_core (buf.getD 0 0) (buf.getD 1 0) =
      dev.modem_status_current
  · rw [if_pos hch]
    refine ⟨hch.symm, fun hec => ?_, rfl, fun l hl => ?_, rfl⟩
    · exact ⟨fun hfired => Bool.noConfusion hfired, fun hne => absurd hch hne⟩
    · by_cases hd : 2 < buf.length ∧ dev.has_data_cb = true
      · rw [if_pos hd] at hl
        cases hl
        exact ⟨rfl, by rw [List.length_drop]⟩
      · rw [if_neg hd] at hl
        cases hl
  · rw [if_neg hch]
    refine ⟨rfl, fun hec => ?_, rfl, fun l hl => ?_, rfl⟩
    · exact ⟨fun _ => hch, fun _ => hec⟩
    · by_cases hd : 2 < buf.length ∧ dev.has_data_cb = true
      · rw [if_pos hd] at hl
        cases hl
        exact ⟨rfl, by rw [List.length_drop]⟩
      · rw [if_neg hd] at hl
        cases hl

/-- Claim C8 witness: the theorem applied to a 4-byte transfer
[1, 16, 65, 66] arriving at a device whose cache holds the all-zero status
and with both callbacks registered. -/
theorem in_xfer_cb_completed_behavior_witness :
    (in_xfer_cb .completed [1, 16, 65, 66]
        ⟨ftdi_parse_modem_status_core 0 0, true, true⟩).modem_status_after =
      ftdi_parse_modem_status_core ([1, 16, 65, 66].getD 0 0) ([1, 16, 65, 66].getD 1 0) ∧
    ((⟨ftdi_parse_modem_status_core 0 0, true, true⟩ : FtdiDevState).has_event_cb = true →
      ((in_xfer_cb .completed [1, 16, 65, 66]
          ⟨ftdi_parse_modem_status_core 0 0, true, true⟩).modem_event_fired = true ↔
        ftdi_parse_modem_status_core ([1, 16, 65, 66].getD 0 0) ([1, 16, 65, 66].getD 1 0) ≠
          (⟨ftdi_parse_modem_status_core 0 0, true, true⟩ : FtdiDevState).modem_status_current)) ∧
    (in_xfer_cb .completed [1, 16, 65, 66]
        ⟨ftdi_parse_modem_status_core 0 0, true, true⟩).delivered =
      (if 2 < [1, 16, 65, 66].length ∧
          (⟨ftdi_parse_modem_status_core 0 0, true, true⟩ : FtdiDevState).has_data_cb = true
       then some ([1, 16, 65, 66].drop 2) else none) ∧
    (∀ l, (in_xfer_cb .completed [1, 16, 65, 66]
        ⟨ftdi_parse_modem_status_core 0 0, true, true⟩).delivered = some l →
      l = [1, 16, 65, 66].drop 2 ∧ l.length = [1, 16, 65, 66].length - 2) ∧
    (in_xfer_cb .completed [1, 16, 65, 66]
        ⟨ftdi_parse_modem_status_core 0 0, true, true⟩).resubmitted = true :=
  in_xfer_cb_completed_behavior [1, 16, 65, 66]
    ⟨ftdi_parse_modem_status_core 0 0, true, true⟩ (by decide)

/-- Claim C9: uninstall fails with InvalidState whenever the device list is
non-empty, leaving the registry installed and its whole state unchanged; it
tears the registry down only when the device list is empty; and it also
fails with InvalidState (again leaving the state unchanged) when no registry
is installed. -/
theorem ftdi_uninstall_requires_empty_device_list (s : FtdiRegistryState) :
    (s.installed = true → s.devices ≠ [] →
      ftdi_sio_host_uninstall s = (.error .invalidState, s)) ∧
    (s.installed = true → s.devices = [] →
      ftdi_sio_host_uninstall s = (.ok (), ⟨false, []⟩)) ∧
    (s.installed = false →
      ftdi_sio_host_uninstall s = (.error .invalidState, s)) := by
  obtain ⟨inst, devs⟩ := s
  refine ⟨fun hi hd => ?_, fun hi hd => ?_, fun hi => ?_⟩
  · subst hi
    unfold ftdi_sio_host_uninstall
    rw [if_neg (by simp), if_pos (by simpa using hd)]
  · subst hi hd
    rfl
  · subst hi
    rfl

/-- Claim C9 witness: the theorem applied to an installed registry with one
open session (refused, state unchanged), to an installed registry with no
sessions (teardown), and to an uninstalled registry (refused). -/
theorem ftdi_uninstall_requires_empty_device_list_witness :
    ftdi_sio_host_uninstall ⟨true, [7]⟩ = (.error .invalidState, ⟨true, [7]⟩) ∧
    ftdi_sio_host_uninstall ⟨true, []⟩ = (.ok (), ⟨false, []⟩) ∧
    ftdi_sio_host_uninstall ⟨false, [7]⟩ = (.error .invalidState, ⟨false, [7]⟩) :=
  ⟨(ftdi_uninstall_requires_empty_device_list ⟨true, [7]⟩).1 rfl (by decide),
   (ftdi_uninstall_requires_empty_device_list ⟨true, []⟩).2.1 rfl rfl,
   (ftdi_uninstall_requires_empty_device_list ⟨false, [7]⟩).2.2 rfl⟩
